import Mathlib

/-!
Verification development for the TrendyolApiPriceControl repository.

The embedding covers the cross-marketplace matcher (`matchingProducts`),
the price-history query layer (`fetch_data_by_range`,
`fetch_data_by_month_year`), the historical-low classifier
(`get_price_category`) and the batch-status checker (`check_batch_status`)
of `TrendyolPriceController.py`.

DataFrame rows are embedded as records of their accessed cells; MySQL
timestamps carry an absolute day index (used by the SQL date-interval
comparisons) together with calendar month and year components (used by the
SQL `MONTH`/`YEAR` extractors), so each SQL operator maps to one field.
-/

/-- One row of the `dfTrendyol` / `dfHepsiburada` DataFrames handed to
`matchingProducts`.  The matcher reads cells positionally (`iloc[i, 0]` ..
`iloc[i, 5]`); cells are compared as opaque values, embedded as strings. -/
structure Row where
  c0 : String
  c1 : String
  c2 : String
  c3 : String
  c4 : String
  c5 : String
deriving DecidableEq

/-- One row of the matcher's output DataFrame, with columns
`["stockID", "HBID", "productName", "price", "stock"]`. -/
structure URec where
  stockID : String
  HBID : String
  productName : String
  price : String
  stock : String
deriving DecidableEq

/-- The match condition of `matchingProducts` (lines 311-318): the
disjunction of six exact cell equalities between a Trendyol row `a`
(cells 0, 1, 2) and a Hepsiburada row `b` (cells 0, 5). -/
def matchEq (a b : Row) : Bool :=
  (a.c0 == b.c0) || (a.c0 == b.c5) ||
  (a.c1 == b.c0) || (a.c1 == b.c5) ||
  (a.c2 == b.c0) || (a.c2 == b.c5)

/-- The same six comparisons with the two sides of each equality swapped,
written out from the spec's symmetry sentence, to be compared with
`matchEq`. -/
def matchEqSwapped (a b : Row) : Bool :=
  (b.c0 == a.c0) || (b.c5 == a.c0) ||
  (b.c0 == a.c1) || (b.c5 == a.c1) ||
  (b.c0 == a.c2) || (b.c5 == a.c2)

/-- The inner loop of `matchingProducts` (lines 310-331): scan the
Hepsiburada rows in original order and stop at the first row matching `a`,
returning its index and the row.  `none` when no row matches. -/
def firstMatch (a : Row) : List Row → Option (Nat × Row)
  | [] => none
  | b :: bs =>
    if matchEq a b then some (0, b)
    else (firstMatch a bs).map (fun jb => (jb.1 + 1, jb.2))

/-- The contents of the `hepsi_matched` set after the first phase of
`matchingProducts`: the first-match index of every Trendyol row that
matched.  The source stores these in a Python `set`; only membership is
ever used, so a list with possible repetitions is an adequate embedding.
(The sibling `trend_matched` set is written but never read and is
omitted.) -/
def consumedList (A B : List Row) : List Nat :=
  A.filterMap (fun a => (firstMatch a B).map Prod.fst)

/-- The record emitted for one Trendyol row by the first phase of
`matchingProducts`.  On a match (lines 323-329) the record combines the
Trendyol row's cells 0, 3, 4, 5 with the matched Hepsiburada row's cell 1.
On no match (lines 333-340) the source still reads `dfHepsiburada.iloc[j, 1]`
where `j` is the stale inner-loop variable, which at that point equals
`len(dfHepsiburada) - 1`; `staleB` is that last Hepsiburada row. -/
def phase1Record (a staleB : Row) (B : List Row) : URec :=
  match firstMatch a B with
  | some jb => { stockID := a.c0, HBID := jb.2.c1, productName := a.c3,
                 price := a.c4, stock := a.c5 }
  | none => { stockID := a.c0, HBID := staleB.c1, productName := a.c3,
              price := a.c4, stock := a.c5 }

/-- The record emitted for a Hepsiburada row never marked consumed
(lines 343-350). -/
def unmatchedBRecord (b : Row) : URec :=
  { stockID := b.c0, HBID := b.c1, productName := b.c2,
    price := b.c3, stock := b.c4 }

/-- `matchingProducts` (lines 289-352).  First phase: one record per
Trendyol row, in order.  Second phase: one record per Hepsiburada index
not in `hepsi_matched`, in order.  When `dfHepsiburada` is empty and
`dfTrendyol` is not, the unmatched branch reads the loop variable `j`
before any assignment, a `NameError`; that crash is embedded as `none`. -/
def matchingProducts (A B : List Row) : Option (List URec) :=
  match B.getLast? with
  | none => if A.isEmpty then some [] else none
  | some staleB =>
    some (A.map (fun a => phase1Record a staleB B) ++
      (B.enum.filter (fun kb => ! decide (kb.1 ∈ consumedList A B))).map
        (fun kb => unmatchedBRecord kb.2))

/-- The number of Trendyol rows that find a match: the match count of the
spec's output-size formula. -/
def numMatches (A B : List Row) : Nat :=
  (A.filter (fun a => (firstMatch a B).isSome)).length

/-- A MySQL `created_at` timestamp: `dayIdx` is the absolute day index
(compared by the `CURDATE() - INTERVAL ... DAY` arithmetic), `month` and
`year` are the calendar components extracted by `MONTH()` / `YEAR()`. -/
structure Timestamp where
  dayIdx : Int
  month : Int
  year : Int
deriving DecidableEq

/-- One row of the MySQL `priceTracking` table,
`(id, barcode, title, price, created_at)`. -/
structure DBRow where
  id : Int
  barcode : String
  title : String
  price : ℚ
  createdAt : Timestamp
deriving DecidableEq

/-- `fetch_data_by_range` (lines 187-211): all rows whose `created_at`
lies in `[CURDATE() - INTERVAL (days-1) DAY, CURDATE() + INTERVAL 1 DAY)`,
not scoped to any product.  `today` embeds `CURDATE()`. -/
def fetch_data_by_range (table : List DBRow) (today days : Int) : List DBRow :=
  table.filter (fun r =>
    decide (today - (days - 1) ≤ r.createdAt.dayIdx) &&
    decide (r.createdAt.dayIdx < today + 1))

/-- `fetch_data_by_month_year` (lines 213-241): all rows whose
`created_at` falls in the given calendar month and year, across all
products; raises `No data found` when the result set is empty. -/
def fetch_data_by_month_year (table : List DBRow) (month year : Int) :
    Except String (List DBRow) :=
  let rows := table.filter (fun r =>
    decide (r.createdAt.month = month) && decide (r.createdAt.year = year))
  if rows.isEmpty then .error s!"No data found for {month}/{year}"
  else .ok rows

/-- Numeric minimum of a list of prices, `none` on the empty list. -/
def minList? : List ℚ → Option ℚ
  | [] => none
  | p :: ps =>
    match minList? ps with
    | none => some p
    | some m => some (min p m)

/-- Modelled from the spec: `get_min_price_last_days(barcode, n)` is
called by `get_price_category` (lines 366-368) but never defined in the
repository.  Per spec §4.1 (`minPriceInLastNDays`), it returns the numeric
minimum price among observations of `barcode` whose timestamp lies in
`[today - (n-1) days, today + 1 day)`, and a NoData sentinel (`none`)
when no observation matches. -/
def get_min_price_last_days (table : List DBRow) (today : Int)
    (barcode : String) (n : Int) : Option ℚ :=
  minList? ((table.filter (fun r =>
    (r.barcode == barcode) &&
    decide (today - (n - 1) ≤ r.createdAt.dayIdx) &&
    decide (r.createdAt.dayIdx < today + 1))).map (fun r => r.price))

/-- Modelled from the spec: the tier comparison of `get_price_category`
when a window minimum is missing.  Spec §4.2/§9 adopt `+infinity` for a
missing window minimum, so the comparison is false and the tier never
triggers. -/
def leOpt (p : ℚ) (w : Option ℚ) : Bool :=
  match w with
  | none => false
  | some m => decide (p ≤ m)

/-- The tier cascade of `get_price_category` (lines 370-377): inclusive
comparisons, tightest window first. -/
def classify (new_price : ℚ) (week_low two_week_low month_low : Option ℚ) :
    String :=
  if leOpt new_price week_low then "1-week-low"
  else if leOpt new_price two_week_low then "2-week-low"
  else if leOpt new_price month_low then "1-month-low"
  else "none"

/-- `get_price_category` (lines 354-377): compute the 7-, 14- and 30-day
window minimums and classify the candidate price. -/
def get_price_category (table : List DBRow) (today : Int) (barcode : String)
    (new_price : ℚ) : String :=
  classify new_price
    (get_min_price_last_days table today barcode 7)
    (get_min_price_last_days table today barcode 14)
    (get_min_price_last_days table today barcode 30)

/-- The mutable state the controller's cursor can reach: the contents of
the `priceTracking` table. -/
structure DBState where
  priceTracking : List DBRow
deriving DecidableEq

/-- `fetch_data_by_range` as a state transformer: the method only runs a
`SELECT` and `fetchall`, so the embedding returns the result next to the
store state it was given. -/
def fetch_data_by_range_st (s : DBState) (today days : Int) :
    DBState × List DBRow :=
  (s, fetch_data_by_range s.priceTracking today days)

/-- `fetch_data_by_month_year` as a state transformer. -/
def fetch_data_by_month_year_st (s : DBState) (month year : Int) :
    DBState × Except String (List DBRow) :=
  (s, fetch_data_by_month_year s.priceTracking month year)

/-- `get_price_category` as a state transformer: it only issues the three
window queries. -/
def get_price_category_st (s : DBState) (today : Int) (barcode : String)
    (new_price : ℚ) : DBState × String :=
  (s, get_price_category s.priceTracking today barcode new_price)

/-- One element of the `items` array of a batch-status response. -/
structure BatchItem where
  barcode : String
  status : String
  failureReasons : List String
deriving DecidableEq

/-- The parts of an HTTP response read by `check_batch_status`. -/
structure HTTPResponse where
  status_code : Int
  items : List BatchItem
  text : String
deriving DecidableEq

/-- The URL built by `check_batch_status` (line 255).  The source f-string
interpolates `seller_id` but writes `{{batch_id}}`, which Python renders
as the literal text `{batch_id}`: the argument is never inserted. -/
def batch_status_url (seller_id batch_id : String) : String :=
  "https://apigw.trendyol.com/integration/product/sellers/" ++ seller_id ++
    "/products/batch-requests/\x7bbatch_id\x7d"

/-- `check_batch_status` (lines 244-275), parameterized by the HTTP layer:
on a 200 response it is true iff every item's status is `SUCCESS`;
otherwise false. -/
def check_batch_status (http : String → HTTPResponse)
    (seller_id batch_id : String) : Bool :=
  let response := http (batch_status_url seller_id batch_id)
  if response.status_code = 200 then
    response.items.all (fun item => item.status == "SUCCESS")
  else
    false

/-! ### Concrete inputs used by counterexamples and witnesses -/

/-- Two Trendyol rows that both match the single Hepsiburada row of
`C1B` on cell 0. -/
def C1A : List Row :=
  [⟨"X", "a1", "a2", "N1", "P1", "S1"⟩, ⟨"X", "e1", "e2", "N2", "P2", "S2"⟩]

/-- One Hepsiburada row with primary identifier `X`. -/
def C1B : List Row := [⟨"X", "HB", "h2", "h3", "h4", "h5"⟩]

/-- The output `matchingProducts` produces on `C1A`, `C1B`: two matched
records, both consuming the same Hepsiburada row. -/
def C1out : List URec :=
  [⟨"X", "HB", "N1", "P1", "S1"⟩, ⟨"X", "HB", "N2", "P2", "S2"⟩]

/-- A single-row Trendyol input sharing no cell with `C1B`. -/
def C1wA : List Row := [⟨"W0", "W1", "W2", "W3", "W4", "W5"⟩]

/-- A Trendyol row that matches nothing in `C2B`. -/
def C2A : List Row := [⟨"A0", "A1", "A2", "A3", "A4", "A5"⟩]

/-- Two Hepsiburada rows; the last one's secondary identifier is `HB2`. -/
def C2B : List Row :=
  [⟨"B0", "HB1", "B2", "B3", "B4", "B5"⟩, ⟨"C0", "HB2", "C2", "C3", "C4", "C5"⟩]

/-- The output `matchingProducts` produces on `C2A`, `C2B`: the unmatched
Trendyol record carries `HB2`, read from the stale loop variable. -/
def C2out : List URec :=
  [⟨"A0", "HB2", "A3", "A4", "A5"⟩,
   ⟨"B0", "HB1", "B2", "B3", "B4"⟩,
   ⟨"C0", "HB2", "C2", "C3", "C4"⟩]

/-- A history for barcode `b` realising the spec's example window
minimums `w7 = 90`, `w14 = 80`, `w30 = 70` at `today = 0`: price 90 today,
80 ten days ago, 70 twenty days ago. -/
def C3tbl : List DBRow :=
  [⟨1, "b", "t", 90, ⟨0, 4, 2025⟩⟩,
   ⟨2, "b", "t", 80, ⟨-10, 4, 2025⟩⟩,
   ⟨3, "b", "t", 70, ⟨-20, 3, 2025⟩⟩]

/-- A Trendyol row whose secondary cell is `K`. -/
def C4a : Row := ⟨"T0", "K", "T2", "T3", "T4", "T5"⟩

/-- A Hepsiburada row whose cell 5 is `K`, so it matches `C4a`. -/
def C4b : Row := ⟨"H0", "H1", "H2", "H3", "H4", "K"⟩

/-- The output of `matchingProducts [C4a] [C4b]`. -/
def C4out : List URec := [⟨"T0", "H1", "T3", "T4", "T5"⟩]

/-- A history with two observations of barcode `b` in the last week
(prices 90 and 80) and one of another barcode. -/
def C5tbl : List DBRow :=
  [⟨1, "b", "t", 90, ⟨0, 1, 2025⟩⟩,
   ⟨2, "b", "t", 80, ⟨-3, 1, 2025⟩⟩,
   ⟨3, "c", "t", 5, ⟨0, 1, 2025⟩⟩]

/-- A table with one April 2025 row and one May 2025 row. -/
def C6tbl : List DBRow :=
  [⟨1, "b", "t", 10, ⟨0, 4, 2025⟩⟩, ⟨2, "c", "t", 20, ⟨30, 5, 2025⟩⟩]

/-! ### Helper lemmas -/

theorem minList?_eq_none {l : List ℚ} : minList? l = none ↔ l = [] := by
  cases l with
  | nil => simp [minList?]
  | cons p ps => cases h : minList? ps <;> simp [minList?, h]

theorem minList?_mem : ∀ {l : List ℚ} {m : ℚ}, minList? l = some m → m ∈ l := by
  intro l
  induction l with
  | nil => intro m h; simp [minList?] at h
  | cons p ps ih =>
    intro m h
    cases hm : minList? ps with
    | none =>
      simp [minList?, hm] at h
      simp [h]
    | some v =>
      simp [minList?, hm] at h
      rcases min_choice p v with hc | hc <;> rw [hc] at h
      · simp [h]
      · exact List.mem_cons_of_mem _ (h ▸ ih hm)

theorem minList?_le : ∀ {l : List ℚ} {m : ℚ}, minList? l = some m →
    ∀ x ∈ l, m ≤ x := by
  intro l
  induction l with
  | nil => intro m h; simp [minList?] at h
  | cons p ps ih =>
    intro m h x hx
    cases hm : minList? ps with
    | none =>
      have hps : ps = [] := minList?_eq_none.mp hm
      subst hps
      simp [minList?] at h
      simp at hx
      simp [h, hx]
    | some v =>
      simp [minList?, hm] at h
      rcases List.mem_cons.mp hx with hxp | hxps
      · exact h ▸ hxp ▸ min_le_left p v
      · exact le_trans (h ▸ min_le_right p v) (ih hm x hxps)

theorem firstMatch_lt {a : Row} : ∀ {B : List Row} {jb : Nat × Row},
    firstMatch a B = some jb → jb.1 < B.length := by
  intro B
  induction B with
  | nil => intro jb h; simp [firstMatch] at h
  | cons b bs ih =>
    intro jb h
    cases hm : matchEq a b with
    | true =>
      simp [firstMatch, hm] at h
      simp [← h]
    | false =>
      simp [firstMatch, hm] at h
      obtain ⟨j0, b1, hp, hjb⟩ := h
      have := ih hp
      subst hjb
      simp at this ⊢
      omega

theorem firstMatch_some_spec {a : Row} : ∀ {B : List Row} {j : Nat} {b : Row},
    firstMatch a B = some (j, b) →
    B[j]? = some b ∧ matchEq a b = true ∧
      ∀ j2 b2, j2 < j → B[j2]? = some b2 → matchEq a b2 = false := by
  intro B
  induction B with
  | nil => intro j b h; simp [firstMatch] at h
  | cons b0 bs ih =>
    intro j b h
    cases hm : matchEq a b0 with
    | true =>
      simp [firstMatch, hm] at h
      obtain ⟨hj, hb⟩ := h
      subst hb
      rcases hj with rfl
      exact ⟨by simp, hm, fun j2 b2 hj2 _ => absurd hj2 (Nat.not_lt_zero j2)⟩
    | false =>
      simp [firstMatch, hm] at h
      obtain ⟨j0, hp, hj⟩ := h
      subst hj
      obtain ⟨hget, hmz, hmin⟩ := ih hp
      refine ⟨by simpa using hget, hmz, ?_⟩
      intro j2 b2 hj2 hget2
      cases j2 with
      | zero =>
        simp at hget2
        exact hget2 ▸ hm
      | succ j3 =>
        simp at hget2
        exact hmin j3 b2 (by omega) hget2

theorem length_filter_compl {α : Type} (l : List α) (p : α → Bool) :
    (l.filter p).length + (l.filter (fun a => ! p a)).length = l.length := by
  induction l with
  | nil => rfl
  | cons a l ih =>
    cases h : p a <;> simp [List.filter_cons, h] <;> omega

theorem filter_mem_length (n : Nat) (c : List Nat) (hc : ∀ x ∈ c, x < n) :
    ((List.range n).filter (fun k => decide (k ∈ c))).length =
      c.dedup.length := by
  have hnd : ((List.range n).filter (fun k => decide (k ∈ c))).Nodup :=
    (List.nodup_range n).filter _
  have hfin : ((List.range n).filter (fun k => decide (k ∈ c))).toFinset =
      c.toFinset := by
    ext k
    simp only [List.mem_toFinset, List.mem_filter, List.mem_range,
      decide_eq_true_eq]
    exact ⟨fun h => h.2, fun h => ⟨hc k h, h⟩⟩
  calc ((List.range n).filter (fun k => decide (k ∈ c))).length
      = ((List.range n).filter (fun k => decide (k ∈ c))).toFinset.card :=
        (List.toFinset_card_of_nodup hnd).symm
    _ = c.toFinset.card := by rw [hfin]
    _ = c.dedup.length := List.card_toFinset c

theorem enum_filter_length {α : Type} (l : List α) (p : Nat → Bool) :
    (l.enum.filter (fun kb => p kb.1)).length =
      ((List.range l.length).filter p).length := by
  have h1 : l.enum.filter (fun kb => p kb.1) =
      l.enum.filter (p ∘ Prod.fst) := rfl
  calc (l.enum.filter (fun kb => p kb.1)).length
      = ((l.enum.filter (p ∘ Prod.fst)).map Prod.fst).length := by
        rw [h1, List.length_map]
    _ = ((l.enum.map Prod.fst).filter p).length := by
        rw [List.filter_map]
    _ = ((List.range l.length).filter p).length := by
        rw [List.enum_map_fst]

theorem consumedList_lt (A B : List Row) :
    ∀ x ∈ consumedList A B, x < B.length := by
  intro x hx
  simp only [consumedList, List.mem_filterMap] at hx
  obtain ⟨a, _, hmap⟩ := hx
  rcases hfm : firstMatch a B with _ | jb
  · rw [hfm] at hmap; simp at hmap
  · rw [hfm] at hmap
    simp at hmap
    exact hmap ▸ firstMatch_lt hfm

theorem classify_some_spec (p w7 w14 w30 : ℚ) :
    (classify p (some w7) (some w14) (some w30) = "1-week-low" ↔ p ≤ w7) ∧
    (classify p (some w7) (some w14) (some w30) = "2-week-low" ↔
      (¬ p ≤ w7 ∧ p ≤ w14)) ∧
    (classify p (some w7) (some w14) (some w30) = "1-month-low" ↔
      (¬ p ≤ w7 ∧ ¬ p ≤ w14 ∧ p ≤ w30)) ∧
    (classify p (some w7) (some w14) (some w30) = "none" ↔
      (¬ p ≤ w7 ∧ ¬ p ≤ w14 ∧ ¬ p ≤ w30)) := by
  simp only [classify, leOpt, decide_eq_true_eq]
  split_ifs with h1 h2 h3
  · exact ⟨iff_of_true rfl h1,
      iff_of_false (by decide) (fun hc => hc.1 h1),
      iff_of_false (by decide) (fun hc => hc.1 h1),
      iff_of_false (by decide) (fun hc => hc.1 h1)⟩
  · exact ⟨iff_of_false (by decide) h1,
      iff_of_true rfl ⟨h1, h2⟩,
      iff_of_false (by decide) (fun hc => hc.2.1 h2),
      iff_of_false (by decide) (fun hc => hc.2.1 h2)⟩
  · exact ⟨iff_of_false (by decide) h1,
      iff_of_false (by decide) (fun hc => h2 hc.2),
      iff_of_true rfl ⟨h1, h2, h3⟩,
      iff_of_false (by decide) (fun hc => hc.2.2 h3)⟩
  · exact ⟨iff_of_false (by decide) h1,
      iff_of_false (by decide) (fun hc => h2 hc.2),
      iff_of_false (by decide) (fun hc => h3 hc.2.2),
      iff_of_true rfl ⟨h1, h2, h3⟩⟩

theorem classify_total (p : ℚ) (w7 w14 w30 : Option ℚ) :
    (classify p w7 w14 w30 = "1-week-low" ∨ classify p w7 w14 w30 = "2-week-low" ∨
     classify p w7 w14 w30 = "1-month-low" ∨ classify p w7 w14 w30 = "none") ∧
    (w7 = none → classify p w7 w14 w30 ≠ "1-week-low") ∧
    (w14 = none → classify p w7 w14 w30 ≠ "2-week-low") ∧
    (w30 = none → classify p w7 w14 w30 ≠ "1-month-low") ∧
    (w7 = none → w14 = none → w30 = none → classify p w7 w14 w30 = "none") := by
  simp only [classify]
  split_ifs with h1 h2 h3
  · refine ⟨Or.inl rfl, fun hw => ?_, fun _ hc => by revert hc; decide,
      fun _ hc => by revert hc; decide, fun hw _ _ => ?_⟩
    · subst hw; simp [leOpt] at h1
    · subst hw; simp [leOpt] at h1
  · refine ⟨Or.inr (Or.inl rfl), fun _ hc => by revert hc; decide,
      fun hw => ?_, fun _ hc => by revert hc; decide, fun _ hw _ => ?_⟩
    · subst hw; simp [leOpt] at h2
    · subst hw; simp [leOpt] at h2
  · refine ⟨Or.inr (Or.inr (Or.inl rfl)), fun _ hc => by revert hc; decide,
      fun _ hc => by revert hc; decide, fun hw => ?_, fun _ _ hw => ?_⟩
    · subst hw; simp [leOpt] at h3
    · subst hw; simp [leOpt] at h3
  · exact ⟨Or.inr (Or.inr (Or.inr rfl)), fun _ hc => by revert hc; decide,
      fun _ hc => by revert hc; decide, fun _ hc => by revert hc; decide,
      fun _ _ _ => rfl⟩

/-! ### Claim theorems -/

/-- C1 (amended): when the Hepsiburada input is nonempty (or the Trendyol
input empty), `matchingProducts` emits exactly one record per Trendyol row
plus one record per unconsumed Hepsiburada index, so the output size is
`|A| + |B|` minus the number of *distinct* Hepsiburada indices consumed; a
single Hepsiburada row matched by several Trendyol rows is represented in
each of their records, and when `dfHepsiburada` is empty and `dfTrendyol`
is not, the matcher crashes on an unassigned loop variable instead of
returning. -/
theorem matchingProducts_record_count (A B : List Row) :
    (B ≠ [] → ∃ out, matchingProducts A B = some out ∧
      out.length + (consumedList A B).dedup.length = A.length + B.length) ∧
    (A ≠ [] → matchingProducts A [] = none) := by
  constructor
  · intro hB
    obtain ⟨staleB, hs⟩ := Option.isSome_iff_exists.mp
      (List.getLast?_isSome.mpr hB)
    refine ⟨A.map (fun a => phase1Record a staleB B) ++
      (B.enum.filter (fun kb => ! decide (kb.1 ∈ consumedList A B))).map
        (fun kb => unmatchedBRecord kb.2),
      by simp only [matchingProducts, hs], ?_⟩
    rw [List.length_append, List.length_map, List.length_map]
    rw [enum_filter_length B (fun k => ! decide (k ∈ consumedList A B))]
    have hc := consumedList_lt A B
    have h2 := length_filter_compl (List.range B.length)
      (fun k => decide (k ∈ consumedList A B))
    have h3 := filter_mem_length B.length (consumedList A B) hc
    rw [List.length_range] at h2
    omega
  · intro hA
    simp [matchingProducts, hA]

/-- C1 counterexample: with two Trendyol rows both matching the single
Hepsiburada row of `C1B`, the output has 2 records while
`|A| + |B| - numMatches = 1`, so the claimed size formula (and the
exactly-once representation of B entries) fails. -/
theorem matchingProducts_record_count_cex :
    matchingProducts C1A C1B = some C1out ∧
    C1out.length ≠ C1A.length + C1B.length - numMatches C1A C1B := by
  exact ⟨by decide, by decide⟩

/-- Witness for C1 (amended) at a concrete unmatched input. -/
theorem matchingProducts_record_count_witness :
    (∃ out, matchingProducts C1wA C1B = some out ∧
      out.length + (consumedList C1wA C1B).dedup.length =
        C1wA.length + C1B.length) ∧ matchingProducts C1wA [] = none :=
  ⟨(matchingProducts_record_count C1wA C1B).1 (by decide),
   (matchingProducts_record_count C1wA []).2 (by decide)⟩

/-- C2 (code bug evaluated): on a Trendyol row that matches no Hepsiburada
row, the emitted unmatched record's `HBID` is `HB2` — the secondary
identifier of the *last* Hepsiburada row, read through the stale loop
variable `j` — not an explicit no-match marker. -/
theorem stale_hbid_bug_eval :
    firstMatch ⟨"A0", "A1", "A2", "A3", "A4", "A5"⟩ C2B = none ∧
    matchingProducts C2A C2B = some C2out ∧
    C2out[0]? = some ⟨"A0", "HB2", "A3", "A4", "A5"⟩ ∧
    C2B.getLast?.map Row.c1 = some "HB2" := by
  exact ⟨by decide, by decide, by decide, by decide⟩

/-- C3 counterexample: the spec example contradicts the code's own tier
order.  With `w7 = 90`, `w14 = 80`, `w30 = 70` a candidate price of 85
satisfies the first, inclusive comparison `85 ≤ w7`, so
`get_price_category` returns `1-week-low` — not `2-week-low` as the claim
states. -/
theorem classifier_example_cex :
    get_min_price_last_days C3tbl 0 "b" 7 = some 90 ∧
    get_min_price_last_days C3tbl 0 "b" 14 = some 80 ∧
    get_min_price_last_days C3tbl 0 "b" 30 = some 70 ∧
    get_price_category C3tbl 0 "b" 85 = "1-week-low" ∧
    ("1-week-low" : String) ≠ "2-week-low" := by
  exact ⟨by decide, by decide, by decide, by decide, by decide⟩

/-- C3 (amended): when the three window minimums exist,
`get_price_category` returns `1-week-low` iff `p ≤ w7` (inclusive), else
`2-week-low` iff `p ≤ w14`, else `1-month-low` iff `p ≤ w30`, else
`none`; on the spec's example history (`w7 = 90`, `w14 = 80`, `w30 = 70`),
price 85 is `1-week-low` and price 95 is `none`. -/
theorem get_price_category_tiers :
    (∀ (table : List DBRow) (today : Int) (bc : String) (p w7 w14 w30 : ℚ),
      get_min_price_last_days table today bc 7 = some w7 →
      get_min_price_last_days table today bc 14 = some w14 →
      get_min_price_last_days table today bc 30 = some w30 →
      ((get_price_category table today bc p = "1-week-low" ↔ p ≤ w7) ∧
       (get_price_category table today bc p = "2-week-low" ↔
         (¬ p ≤ w7 ∧ p ≤ w14)) ∧
       (get_price_category table today bc p = "1-month-low" ↔
         (¬ p ≤ w7 ∧ ¬ p ≤ w14 ∧ p ≤ w30)) ∧
       (get_price_category table today bc p = "none" ↔
         (¬ p ≤ w7 ∧ ¬ p ≤ w14 ∧ ¬ p ≤ w30)))) ∧
    get_price_category C3tbl 0 "b" 85 = "1-week-low" ∧
    get_price_category C3tbl 0 "b" 95 = "none" := by
  refine ⟨?_, by decide, by decide⟩
  intro table today bc p w7 w14 w30 h7 h14 h30
  have h := classify_some_spec p w7 w14 w30
  simpa [get_price_category, h7, h14, h30] using h

/-- Witness for C3 (amended): the corrected example obtained through the
tier characterisation. -/
theorem get_price_category_tiers_witness :
    get_price_category C3tbl 0 "b" 85 = "1-week-low" :=
  ((get_price_category_tiers.1 C3tbl 0 "b" 85 90 80 70 (by decide) (by decide)
    (by decide)).1).mpr (by norm_num)

/-- C4: two rows are declared the same product iff one of exactly six
exact string equalities holds, and for each Trendyol row the matcher scans
the Hepsiburada rows in original order, emits the first match, and the
emitted record combines the Trendyol row's stock identifier, name, price
and stock with the matched row's secondary identifier. -/
theorem match_rule_first_wins :
    (∀ a b : Row, matchEq a b = true ↔
      (a.c0 = b.c0 ∨ a.c0 = b.c5 ∨ a.c1 = b.c0 ∨ a.c1 = b.c5 ∨
       a.c2 = b.c0 ∨ a.c2 = b.c5)) ∧
    (∀ (A B : List Row) (staleB : Row) (out : List URec),
      B.getLast? = some staleB → matchingProducts A B = some out →
      ∀ (i j : Nat) (a b : Row), A[i]? = some a →
        firstMatch a B = some (j, b) →
        B[j]? = some b ∧ matchEq a b = true ∧
        (∀ (j2 : Nat) (b2 : Row), j2 < j → B[j2]? = some b2 →
          matchEq a b2 = false) ∧
        out[i]? = some ⟨a.c0, b.c1, a.c3, a.c4, a.c5⟩) := by
  constructor
  · intro a b
    simp [matchEq, beq_iff_eq, or_assoc]
  · intro A B staleB out hlast hmp i j a b hA hfm
    obtain ⟨hget, hme, hmin⟩ := firstMatch_some_spec hfm
    refine ⟨hget, hme, hmin, ?_⟩
    simp only [matchingProducts, hlast, Option.some.injEq] at hmp
    rw [← hmp]
    have hi : i < A.length := by
      obtain ⟨h, _⟩ := List.getElem?_eq_some_iff.mp hA
      exact h
    rw [List.getElem?_append_left (by simpa using hi), List.getElem?_map, hA]
    simp [phase1Record, hfm]

/-- Witness for C4: a concrete pair matching on the fourth of the six
equalities, and the record the matcher emits for it. -/
theorem match_rule_first_wins_witness :
    matchEq C4a C4b = true ∧
    C4out[0]? = some ⟨"T0", "H1", "T3", "T4", "T5"⟩ :=
  ⟨(match_rule_first_wins.1 C4a C4b).mpr
    (Or.inr (Or.inr (Or.inr (Or.inl rfl)))),
   (match_rule_first_wins.2 [C4a] [C4b] C4b C4out rfl (by decide) 0 0 C4a C4b
     rfl (by decide)).2.2.2⟩

/-- C5 (spec-modelled): the windowed minimum query returns the numeric
minimum over exactly the observations of the given product whose day
index lies in `[today - (n-1), today + 1)`, and the NoData sentinel
`none` — never the number zero — when no such observation exists. -/
theorem get_min_price_spec (table : List DBRow) (today : Int) (pid : String)
    (n : Int) :
    (get_min_price_last_days table today pid n = none ↔
      ∀ r ∈ table, ¬(r.barcode = pid ∧
        today - (n - 1) ≤ r.createdAt.dayIdx ∧
        r.createdAt.dayIdx < today + 1)) ∧
    (∀ m, get_min_price_last_days table today pid n = some m →
      (∃ r, r ∈ table ∧ r.barcode = pid ∧
        today - (n - 1) ≤ r.createdAt.dayIdx ∧
        r.createdAt.dayIdx < today + 1 ∧ r.price = m) ∧
      (∀ r ∈ table, r.barcode = pid → today - (n - 1) ≤ r.createdAt.dayIdx →
        r.createdAt.dayIdx < today + 1 → m ≤ r.price)) := by
  have hp : ∀ r : DBRow,
      ((r.barcode == pid) &&
        decide (today - (n - 1) ≤ r.createdAt.dayIdx) &&
        decide (r.createdAt.dayIdx < today + 1)) = true ↔
      (r.barcode = pid ∧ today - (n - 1) ≤ r.createdAt.dayIdx ∧
        r.createdAt.dayIdx < today + 1) := by
    intro r
    simp [Bool.and_eq_true, beq_iff_eq, and_assoc]
  constructor
  · rw [get_min_price_last_days, minList?_eq_none, List.map_eq_nil_iff,
      List.filter_eq_nil_iff]
    constructor
    · intro h r hr hc
      exact h r hr ((hp r).mpr hc)
    · intro h r hr hpr
      exact h r hr ((hp r).mp hpr)
  · intro m hm
    rw [get_min_price_last_days] at hm
    have hmem := minList?_mem hm
    have hle := minList?_le hm
    constructor
    · obtain ⟨r, hrf, hpr⟩ := List.mem_map.mp hmem
      obtain ⟨hrt, hq⟩ := List.mem_filter.mp hrf
      obtain ⟨h1, h2, h3⟩ := (hp r).mp hq
      exact ⟨r, hrt, h1, h2, h3, hpr⟩
    · intro r hr h1 h2 h3
      exact hle r.price (List.mem_map_of_mem _
        (List.mem_filter.mpr ⟨hr, (hp r).mpr ⟨h1, h2, h3⟩⟩))

/-- Witness for C5: on `C5tbl` the 7-day window minimum for barcode `b`
is 80, and it is a lower bound for the in-window price 90. -/
theorem get_min_price_spec_witness :
    get_min_price_last_days C5tbl 0 "b" 7 = some 80 ∧ (80 : ℚ) ≤ 90 := by
  refine ⟨by decide, ?_⟩
  exact ((get_min_price_spec C5tbl 0 "b" 7).2 80 (by decide)).2
    ⟨1, "b", "t", 90, ⟨0, 1, 2025⟩⟩ (by decide) rfl (by decide) (by decide)

/-- C6: the calendar query fails with a `no data` error iff no stored
observation falls in the requested month and year; otherwise it returns
exactly the observations of that month and year across all products, and
never an empty success. -/
theorem fetch_month_year_spec (table : List DBRow) (month year : Int) :
    ((∃ e, fetch_data_by_month_year table month year = .error e) ↔
      ∀ r ∈ table, ¬(r.createdAt.month = month ∧ r.createdAt.year = year)) ∧
    (∀ rows, fetch_data_by_month_year table month year = .ok rows →
      rows ≠ [] ∧ ∀ r, r ∈ rows ↔
        (r ∈ table ∧ r.createdAt.month = month ∧ r.createdAt.year = year)) := by
  have hp : ∀ r : DBRow,
      (decide (r.createdAt.month = month) &&
        decide (r.createdAt.year = year)) = true ↔
      (r.createdAt.month = month ∧ r.createdAt.year = year) := by
    intro r; simp
  by_cases hemp : (table.filter (fun r =>
      decide (r.createdAt.month = month) &&
      decide (r.createdAt.year = year))).isEmpty
  · have hfe : fetch_data_by_month_year table month year =
        .error s!"No data found for {month}/{year}" := by
      simp only [fetch_data_by_month_year]
      rw [if_pos hemp]
    have hnil := List.isEmpty_iff.mp hemp
    constructor
    · refine iff_of_true ⟨_, hfe⟩ ?_
      intro r hr hc
      exact (List.filter_eq_nil_iff.mp hnil) r hr ((hp r).mpr hc)
    · intro rows h
      rw [hfe] at h
      simp at h
  · have hfe : fetch_data_by_month_year table month year =
        .ok (table.filter (fun r =>
          decide (r.createdAt.month = month) &&
          decide (r.createdAt.year = year))) := by
      simp only [fetch_data_by_month_year]
      rw [if_neg hemp]
    constructor
    · refine iff_of_false ?_ ?_
      · rintro ⟨e, he⟩
        rw [hfe] at he
        simp at he
      · intro hall
        apply hemp
        rw [List.isEmpty_iff, List.filter_eq_nil_iff]
        intro r hr hpr
        exact hall r hr ((hp r).mp hpr)
    · intro rows h
      rw [hfe] at h
      simp only [Except.ok.injEq] at h
      subst h
      refine ⟨fun hnil => hemp (by rw [List.isEmpty_iff, hnil]), ?_⟩
      intro r
      rw [List.mem_filter, hp r]

/-- Witness for C6: `C6tbl` restricted to April 2025 is a nonempty
success. -/
theorem fetch_month_year_spec_witness :
    ([⟨1, "b", "t", 10, ⟨0, 4, 2025⟩⟩] : List DBRow) ≠ [] :=
  ((fetch_month_year_spec C6tbl 4 2025).2
    [⟨1, "b", "t", 10, ⟨0, 4, 2025⟩⟩] rfl).1

/-- C7 (spec-modelled): the classifier is total — it always returns one of
the four category strings — and a window whose minimum is the NoData
sentinel never triggers its tier: classification falls through to the
next tier, and to `none` when every window is empty. -/
theorem get_price_category_total (table : List DBRow) (today : Int)
    (bc : String) (p : ℚ) :
    (get_price_category table today bc p = "1-week-low" ∨
     get_price_category table today bc p = "2-week-low" ∨
     get_price_category table today bc p = "1-month-low" ∨
     get_price_category table today bc p = "none") ∧
    (get_min_price_last_days table today bc 7 = none →
      get_price_category table today bc p ≠ "1-week-low") ∧
    (get_min_price_last_days table today bc 14 = none →
      get_price_category table today bc p ≠ "2-week-low") ∧
    (get_min_price_last_days table today bc 30 = none →
      get_price_category table today bc p ≠ "1-month-low") ∧
    (get_min_price_last_days table today bc 7 = none →
     get_min_price_last_days table today bc 14 = none →
     get_min_price_last_days table today bc 30 = none →
      get_price_category table today bc p = "none") :=
  classify_total p (get_min_price_last_days table today bc 7)
    (get_min_price_last_days table today bc 14)
    (get_min_price_last_days table today bc 30)

/-- Witness for C7: a product with no history at all classifies as
`none` instead of failing. -/
theorem get_price_category_total_witness :
    get_price_category [] 0 "x" 5 = "none" :=
  (get_price_category_total [] 0 "x" 5).2.2.2.2 rfl rfl rfl

/-- C8: the match decision is symmetric — swapping the two sides of each
of the six designated field comparisons yields the same decision. -/
theorem matchEq_symm (a b : Row) : matchEq a b = matchEqSwapped a b := by
  simp only [matchEq, matchEqSwapped, Bool.beq_comm]

/-- C9: the history-store queries and the classifier are read-only: each
returns the store state it was given, unchanged — the source methods only
run `SELECT` statements and never insert, update or delete. -/
theorem queries_read_only (s : DBState) (today days month year : Int)
    (bc : String) (p : ℚ) :
    (fetch_data_by_range_st s today days).1 = s ∧
    (fetch_data_by_month_year_st s month year).1 = s ∧
    (get_price_category_st s today bc p).1 = s :=
  ⟨rfl, rfl, rfl⟩

/-- C10: the batch-status URL contains the literal placeholder text
`{batch_id}` — the f-string writes `{{batch_id}}` — so the request, and
with it the success/failure result, is identical for every `batch_id`
argument. -/
theorem batch_status_url_independent (http : String → HTTPResponse)
    (sid b1 b2 : String) :
    batch_status_url sid b1 = batch_status_url sid b2 ∧
    (∃ pre, batch_status_url sid b1 = pre ++ "\x7bbatch_id\x7d") ∧
    check_batch_status http sid b1 = check_batch_status http sid b2 := by
  refine ⟨rfl, ?_, rfl⟩
  refine ⟨"https://apigw.trendyol.com/integration/product/sellers/" ++ sid ++
    "/products/batch-requests/", ?_⟩
  rw [batch_status_url,
    String.append_assoc
      ("https://apigw.trendyol.com/integration/product/sellers/" ++ sid)
      "/products/batch-requests/" "\x7bbatch_id\x7d"]
  congr 1
